import Mathlib

/-!
# rusty-shed — verification of the persistence and domain-integrity layer

Shallow embedding of the repository's persistence layer:

* the SQL DDL of `src-tauri/migrations/0001_create_railway_models_and_rolling_stocks.sql`
  and of the three unnamed migration files (`src/unnamed/part_000`, `part_001`,
  `part_002`), transcribed statement by statement;
* a typed relational store whose insert/delete operations implement the SQLite
  semantics of exactly the `FOREIGN KEY ... ON DELETE CASCADE` clauses declared
  in that DDL;
* the exported logging functions of `src/src/lib/tauri-logger.ts`;
* the Value Canonicalizer and the Wishlist Manager, which have no code in the
  repository and are modelled from the specification.
-/

namespace RustyShed

/-! ## SQL DDL embedding

The migrations are lists of `CREATE TABLE IF NOT EXISTS` / `CREATE INDEX IF NOT
EXISTS` statements.  We transcribe each column with its declared type, NOT NULL
flag, PRIMARY KEY flag and DEFAULT clause, and each FOREIGN KEY clause. -/

inductive ColType
  | text
  | integer
  | real
deriving DecidableEq, Repr

structure ColumnDef where
  name : String
  ty : ColType
  notNull : Bool := false
  isPrimaryKey : Bool := false
  dflt : Option String := none
deriving DecidableEq, Repr

structure ForeignKeyDef where
  column : String
  refTable : String
  refColumn : String := "id"
  onDeleteCascade : Bool := true
deriving DecidableEq, Repr

structure TableDef where
  name : String
  columns : List ColumnDef
  fkeys : List ForeignKeyDef := []
deriving DecidableEq, Repr

structure IndexDef where
  name : String
  table : String
  columns : List String
  unique : Bool := false
deriving DecidableEq, Repr

inductive SqlStmt
  | createTable (ifNotExists : Bool) (t : TableDef)
  | createIndex (ifNotExists : Bool) (i : IndexDef)
deriving DecidableEq, Repr

structure Migration where
  version : Nat
  stmts : List SqlStmt
deriving DecidableEq, Repr

/-- Transcription of
`src-tauri/migrations/0001_create_railway_models_and_rolling_stocks.sql`. -/
def migration0001 : Migration :=
  { version := 1
    stmts :=
      [ .createTable true
          { name := "manufacturers"
            columns :=
              [ { name := "id", ty := .text, isPrimaryKey := true }
              , { name := "name", ty := .text, notNull := true }
              , { name := "registered_company_name", ty := .text }
              , { name := "country_code", ty := .text }
              , { name := "created_at", ty := .text, notNull := true, dflt := some "CURRENT_TIMESTAMP" }
              , { name := "updated_at", ty := .text, notNull := true, dflt := some "CURRENT_TIMESTAMP" } ] }
      , .createIndex true
          { name := "idx_manufacturers_name", table := "manufacturers"
            columns := ["name"], unique := true }
      , .createTable true
          { name := "railway_companies"
            columns :=
              [ { name := "id", ty := .text, isPrimaryKey := true }
              , { name := "name", ty := .text, notNull := true }
              , { name := "registered_company_name", ty := .text }
              , { name := "country_code", ty := .text }
              , { name := "status", ty := .text }
              , { name := "created_at", ty := .text, notNull := true, dflt := some "CURRENT_TIMESTAMP" }
              , { name := "updated_at", ty := .text, notNull := true, dflt := some "CURRENT_TIMESTAMP" } ] }
      , .createIndex true
          { name := "idx_railway_companies_name", table := "railway_companies"
            columns := ["name"], unique := true }
      , .createTable true
          { name := "railway_models"
            columns :=
              [ { name := "id", ty := .text, isPrimaryKey := true }
              , { name := "manufacturer_id", ty := .text, notNull := true }
              , { name := "product_code", ty := .text, notNull := true }
              , { name := "description", ty := .text, notNull := true }
              , { name := "details", ty := .text }
              , { name := "power_method", ty := .text, notNull := true }
              , { name := "scale", ty := .text, notNull := true }
              , { name := "epoch", ty := .text, notNull := true }
              , { name := "category", ty := .text, notNull := true }
              , { name := "delivery_date", ty := .text }
              , { name := "availability_status", ty := .text }
              , { name := "created_at", ty := .text, notNull := true, dflt := some "CURRENT_TIMESTAMP" }
              , { name := "updated_at", ty := .text, notNull := true, dflt := some "CURRENT_TIMESTAMP" } ]
            fkeys :=
              [ { column := "manufacturer_id", refTable := "manufacturers" } ] }
      , .createIndex true
          { name := "idx_railway_model_product_code", table := "railway_models"
            columns := ["product_code"] }
      , .createTable true
          { name := "rolling_stocks"
            columns :=
              [ { name := "id", ty := .text, isPrimaryKey := true }
              , { name := "railway_model_id", ty := .text, notNull := true }
              , { name := "category", ty := .text, notNull := true }
              , { name := "railway_company_id", ty := .text, notNull := true }
              , { name := "railway_display", ty := .text }
              , { name := "livery", ty := .text }
              , { name := "length_inches", ty := .real }
              , { name := "length_millimeters", ty := .real }
              , { name := "technical_minimum_radius_mm", ty := .real }
              , { name := "technical_coupling", ty := .text }
              , { name := "technical_flywheel_fitted", ty := .text }
              , { name := "technical_body_shell", ty := .text }
              , { name := "technical_chassis", ty := .text }
              , { name := "technical_interior_lights", ty := .text }
              , { name := "technical_lights", ty := .text }
              , { name := "technical_sprung_buffers", ty := .text }
              , { name := "type_name", ty := .text }
              , { name := "class_name", ty := .text }
              , { name := "road_number", ty := .text }
              , { name := "series", ty := .text }
              , { name := "depot", ty := .text }
              , { name := "electric_multiple_unit_type", ty := .text }
              , { name := "freight_car_type", ty := .text }
              , { name := "locomotive_type", ty := .text }
              , { name := "passenger_car_type", ty := .text }
              , { name := "railcar_type", ty := .text }
              , { name := "service_level", ty := .text }
              , { name := "dcc_interface", ty := .text }
              , { name := "control", ty := .text }
              , { name := "is_dummy", ty := .integer, notNull := true, dflt := some "0" } ]
            fkeys :=
              [ { column := "railway_model_id", refTable := "railway_models" }
              , { column := "railway_company_id", refTable := "railway_companies" } ] }
      , .createIndex true
          { name := "idx_rolling_stock_road_number", table := "rolling_stocks"
            columns := ["road_number"] }
      , .createIndex true
          { name := "idx_rolling_stock_railway_model_id", table := "rolling_stocks"
            columns := ["railway_model_id"] } ] }

/-- Transcription of `src/unnamed/part_000` (an unnamed migration file; the
relative order of the three unnamed migrations is unknown, so every theorem
below quantifies over the set of migrations rather than a fixed order). -/
def migrationPart000 : Migration :=
  { version := 2
    stmts :=
      [ .createTable true
          { name := "collections"
            columns :=
              [ { name := "id", ty := .text, isPrimaryKey := true }
              , { name := "name", ty := .text, notNull := true }
              , { name := "locomotives_count", ty := .integer, notNull := true, dflt := some "0" }
              , { name := "passenger_cars_count", ty := .integer, notNull := true, dflt := some "0" }
              , { name := "freight_cars_count", ty := .integer, notNull := true, dflt := some "0" }
              , { name := "train_sets_count", ty := .integer, notNull := true, dflt := some "0" }
              , { name := "railcars_count", ty := .integer, notNull := true, dflt := some "0" }
              , { name := "electric_multiple_units_count", ty := .integer, notNull := true, dflt := some "0" }
              , { name := "total_value_amount", ty := .integer, notNull := true, dflt := some "0" }
              , { name := "total_value_currency", ty := .text, notNull := true, dflt := some "EUR" } ] }
      , .createTable true
          { name := "collection_items"
            columns :=
              [ { name := "id", ty := .text, isPrimaryKey := true }
              , { name := "collection_id", ty := .text, notNull := true }
              , { name := "railway_model_id", ty := .text }
              , { name := "manufacturer", ty := .text, notNull := true }
              , { name := "product_code", ty := .text, notNull := true }
              , { name := "description", ty := .text }
              , { name := "power_method", ty := .text }
              , { name := "scale", ty := .text }
              , { name := "epoch", ty := .text } ]
            fkeys :=
              [ { column := "collection_id", refTable := "collections" } ] }
      , .createTable true
          { name := "owned_rolling_stocks"
            columns :=
              [ { name := "id", ty := .text, isPrimaryKey := true }
              , { name := "item_id", ty := .text, notNull := true }
              , { name := "catalog_rolling_stock_id", ty := .text }
              , { name := "notes", ty := .text }
              , { name := "railway_name", ty := .text }
              , { name := "railway_registered_name", ty := .text }
              , { name := "railway_country_code", ty := .text }
              , { name := "epoch", ty := .text } ]
            fkeys :=
              [ { column := "item_id", refTable := "collection_items" } ] }
      , .createTable true
          { name := "purchase_infos"
            columns :=
              [ { name := "id", ty := .text, isPrimaryKey := true }
              , { name := "item_id", ty := .text, notNull := true }
              , { name := "date", ty := .text }
              , { name := "price_amount", ty := .integer }
              , { name := "price_currency", ty := .text }
              , { name := "seller", ty := .text } ]
            fkeys :=
              [ { column := "item_id", refTable := "collection_items" } ] } ] }

/-- Transcription of `src/unnamed/part_001`. -/
def migrationPart001 : Migration :=
  { version := 3
    stmts :=
      [ .createTable true
          { name := "collections"
            columns :=
              [ { name := "id", ty := .text, isPrimaryKey := true }
              , { name := "name", ty := .text, notNull := true }
              , { name := "locomotives_count", ty := .integer, notNull := true, dflt := some "0" }
              , { name := "passenger_cars_count", ty := .integer, notNull := true, dflt := some "0" }
              , { name := "freight_cars_count", ty := .integer, notNull := true, dflt := some "0" }
              , { name := "train_sets_count", ty := .integer, notNull := true, dflt := some "0" }
              , { name := "railcars_count", ty := .integer, notNull := true, dflt := some "0" }
              , { name := "electric_multiple_units_count", ty := .integer, notNull := true, dflt := some "0" }
              , { name := "total_value_amount", ty := .integer, notNull := true, dflt := some "0" }
              , { name := "total_value_currency", ty := .text, notNull := true, dflt := some "EUR" }
              , { name := "created_at", ty := .text, notNull := true, dflt := some "CURRENT_TIMESTAMP" }
              , { name := "updated_at", ty := .text, notNull := true, dflt := some "CURRENT_TIMESTAMP" } ] }
      , .createTable true
          { name := "collection_items"
            columns :=
              [ { name := "id", ty := .text, isPrimaryKey := true }
              , { name := "collection_id", ty := .text, notNull := true }
              , { name := "railway_model_id", ty := .text }
              , { name := "manufacturer", ty := .text, notNull := true }
              , { name := "product_code", ty := .text, notNull := true }
              , { name := "description", ty := .text }
              , { name := "conditions", ty := .text }
              , { name := "power_method", ty := .text }
              , { name := "scale", ty := .text }
              , { name := "epoch", ty := .text } ]
            fkeys :=
              [ { column := "collection_id", refTable := "collections" } ] }
      , .createTable true
          { name := "owned_rolling_stocks"
            columns :=
              [ { name := "id", ty := .text, isPrimaryKey := true }
              , { name := "item_id", ty := .text, notNull := true }
              , { name := "catalog_rolling_stock_id", ty := .text }
              , { name := "notes", ty := .text }
              , { name := "railway_id", ty := .text, notNull := true }
              , { name := "epoch", ty := .text } ]
            fkeys :=
              [ { column := "item_id", refTable := "collection_items" } ] }
      , .createTable true
          { name := "purchase_infos"
            columns :=
              [ { name := "id", ty := .text, isPrimaryKey := true }
              , { name := "item_id", ty := .text, notNull := true }
              , { name := "purchase_date", ty := .text, notNull := true }
              , { name := "price_amount", ty := .integer }
              , { name := "price_currency", ty := .text }
              , { name := "seller", ty := .text } ]
            fkeys :=
              [ { column := "item_id", refTable := "collection_items" } ] } ] }

/-- Transcription of `src/unnamed/part_002`. -/
def migrationPart002 : Migration :=
  { version := 4
    stmts :=
      [ .createTable true
          { name := "collections"
            columns :=
              [ { name := "id", ty := .text, isPrimaryKey := true }
              , { name := "name", ty := .text, notNull := true }
              , { name := "locomotives_count", ty := .integer, notNull := true, dflt := some "0" }
              , { name := "passenger_cars_count", ty := .integer, notNull := true, dflt := some "0" }
              , { name := "freight_cars_count", ty := .integer, notNull := true, dflt := some "0" }
              , { name := "train_sets_count", ty := .integer, notNull := true, dflt := some "0" }
              , { name := "railcars_count", ty := .integer, notNull := true, dflt := some "0" }
              , { name := "electric_multiple_units_count", ty := .integer, notNull := true, dflt := some "0" }
              , { name := "total_value_amount", ty := .integer, notNull := true, dflt := some "0" }
              , { name := "total_value_currency", ty := .text, notNull := true, dflt := some "EUR" }
              , { name := "created_at", ty := .text, notNull := true, dflt := some "CURRENT_TIMESTAMP" }
              , { name := "updated_at", ty := .text, notNull := true, dflt := some "CURRENT_TIMESTAMP" } ] }
      , .createTable true
          { name := "collection_items"
            columns :=
              [ { name := "id", ty := .text, isPrimaryKey := true }
              , { name := "collection_id", ty := .text, notNull := true }
              , { name := "railway_model_id", ty := .text }
              , { name := "manufacturer", ty := .text, notNull := true }
              , { name := "product_code", ty := .text, notNull := true }
              , { name := "description", ty := .text }
              , { name := "conditions", ty := .text }
              , { name := "power_method", ty := .text }
              , { name := "scale", ty := .text }
              , { name := "epoch", ty := .text } ]
            fkeys :=
              [ { column := "collection_id", refTable := "collections" } ] }
      , .createTable true
          { name := "owned_rolling_stocks"
            columns :=
              [ { name := "id", ty := .text, isPrimaryKey := true }
              , { name := "item_id", ty := .text, notNull := true }
              , { name := "catalog_rolling_stock_id", ty := .text }
              , { name := "notes", ty := .text }
              , { name := "railway_id", ty := .text, notNull := true }
              , { name := "epoch", ty := .text } ]
            fkeys :=
              [ { column := "item_id", refTable := "collection_items" } ] }
      , .createTable true
          { name := "purchase_infos"
            columns :=
              [ { name := "purchase_id", ty := .text, isPrimaryKey := true }
              , { name := "collection_item_id", ty := .text, notNull := true }
              , { name := "purchase_type", ty := .text }
              , { name := "purchase_date", ty := .text, notNull := true }
              , { name := "seller_id", ty := .text }
              , { name := "buyer_id", ty := .text }
              , { name := "sale_date", ty := .text }
              , { name := "purchased_price_amount", ty := .integer }
              , { name := "purchased_price_currency", ty := .text }
              , { name := "sale_price_amount", ty := .integer }
              , { name := "sale_price_currency", ty := .text }
              , { name := "deposit_amount", ty := .integer }
              , { name := "deposit_currency", ty := .text }
              , { name := "preorder_total_amount", ty := .integer }
              , { name := "preorder_total_currency", ty := .text }
              , { name := "expected_date", ty := .text } ]
            fkeys :=
              [ { column := "collection_item_id", refTable := "collection_items" } ] }
      , .createIndex true
          { name := "idx_purchase_infos_collection_item", table := "purchase_infos"
            columns := ["collection_item_id"] }
      , .createIndex true
          { name := "idx_purchase_infos_type", table := "purchase_infos"
            columns := ["purchase_type"] } ] }

/-- All migration files present in the repository. -/
def allMigrations : List Migration :=
  [migration0001, migrationPart000, migrationPart001, migrationPart002]

/-! ## Schema Migrator

Application of DDL statements to a store.  `CREATE TABLE` / `CREATE INDEX`
without `IF NOT EXISTS` errors when the object already exists; with
`IF NOT EXISTS` it is a no-op (SQLite semantics).  Row contents (`rows`) are
untouched by DDL.  The persisted schema-version marker is modelled from the
spec ("Maintains a persisted schema-version marker"); the migrator itself has
no code in the repository, only the migration files do. -/

inductive MigrationError
  | duplicateTable (name : String)
  | duplicateIndex (name : String)
deriving DecidableEq, Repr

/-- A generic row, as a list of column/value bindings (only carried along to
state that DDL leaves table contents untouched). -/
abbrev RowV := List (String × String)

structure SchemaState where
  version : Nat
  tables : List TableDef
  indexes : List IndexDef
  rows : List (String × List RowV)
deriving DecidableEq, Repr

def SchemaState.hasTable (s : SchemaState) (n : String) : Bool :=
  s.tables.any (fun t => t.name == n)

def SchemaState.hasIndex (s : SchemaState) (n : String) : Bool :=
  s.indexes.any (fun i => i.name == n)

def applyStmt (s : SchemaState) : SqlStmt → Except MigrationError SchemaState
  | .createTable ine t =>
      if s.hasTable t.name then
        if ine then .ok s else .error (.duplicateTable t.name)
      else
        .ok { s with tables := s.tables ++ [t] }
  | .createIndex ine i =>
      if s.hasIndex i.name then
        if ine then .ok s else .error (.duplicateIndex i.name)
      else
        .ok { s with indexes := s.indexes ++ [i] }

def applyStmts : List SqlStmt → SchemaState → Except MigrationError SchemaState
  | [], s => .ok s
  | st :: rest, s =>
      match applyStmt s st with
      | .ok s2 => applyStmts rest s2
      | .error e => .error e

/-- Running one migration: execute its statements, then advance the persisted
schema-version marker (never backwards). -/
def applyMigration (m : Migration) (s : SchemaState) : Except MigrationError SchemaState :=
  match applyStmts m.stmts s with
  | .ok s2 => .ok { s2 with version := max s2.version m.version }
  | .error e => .error e

/-- A single DDL statement is already in effect in state `s`. -/
def stmtApplied (s : SchemaState) : SqlStmt → Bool
  | .createTable _ t => s.hasTable t.name
  | .createIndex _ i => s.hasIndex i.name

/-- The migration has already been applied in `s`: its version marker has been
reached and every object it creates exists. -/
def Migration.appliedIn (m : Migration) (s : SchemaState) : Prop :=
  m.version ≤ s.version ∧ m.stmts.all (stmtApplied s) = true

instance (m : Migration) (s : SchemaState) : Decidable (m.appliedIn s) := by
  unfold Migration.appliedIn; infer_instance

/-- Every statement of the migration carries `IF NOT EXISTS`. -/
def Migration.allIfNotExists (m : Migration) : Bool :=
  m.stmts.all fun st =>
    match st with
    | .createTable b _ => b
    | .createIndex b _ => b

theorem applyStmt_of_applied (s : SchemaState) (st : SqlStmt)
    (hb : (match st with | .createTable b _ => b | .createIndex b _ => b) = true)
    (ha : stmtApplied s st = true) :
    applyStmt s st = .ok s := by
  cases st with
  | createTable b t =>
      simp only [stmtApplied] at ha
      simp only at hb
      simp only [applyStmt, ha, if_true, hb]
  | createIndex b i =>
      simp only [stmtApplied] at ha
      simp only at hb
      simp only [applyStmt, ha, if_true, hb]

theorem applyStmts_of_applied (l : List SqlStmt) (s : SchemaState)
    (hb : (l.all fun st => match st with | .createTable b _ => b | .createIndex b _ => b) = true)
    (ha : l.all (stmtApplied s) = true) :
    applyStmts l s = .ok s := by
  induction l with
  | nil => rfl
  | cons st rest ih =>
      rw [List.all_cons, Bool.and_eq_true] at hb ha
      rw [applyStmts, applyStmt_of_applied s st hb.1 ha.1]
      exact ih hb.2 ha.2

theorem allMigrations_ifNotExists :
    ∀ m ∈ allMigrations, m.allIfNotExists = true := by decide

def emptySchemaState : SchemaState :=
  { version := 0, tables := [], indexes := [], rows := [] }

/-- The store state after running the named migration on an empty store
(used as a concrete "already applied" state). -/
def schemaAfter0001 : SchemaState :=
  (applyMigration migration0001 emptySchemaState).toOption.getD emptySchemaState

/-- C2: for every migration of the repository and every store state in which it
has already been applied (version marker reached and every object it creates
present), re-applying it returns `ok` with the state — schema version, table
definitions, indexes and the contents of every table — unchanged. -/
theorem migration_reapply_noop (m : Migration) (s : SchemaState)
    (hm : m ∈ allMigrations) (ha : m.appliedIn s) :
    applyMigration m s = .ok s := by
  have hb : m.allIfNotExists = true := allMigrations_ifNotExists m hm
  unfold Migration.allIfNotExists at hb
  rw [applyMigration, applyStmts_of_applied m.stmts s hb ha.2]
  have : max s.version m.version = s.version := Nat.max_eq_left ha.1
  simp [this]

/-- Witness for C2 at a concrete input: the state obtained by running migration
0001 on the empty store, on which re-application is a no-op. -/
theorem migration_reapply_noop_witness :
    migration0001 ∈ allMigrations ∧
      applyMigration migration0001 schemaAfter0001 = .ok schemaAfter0001 := by
  refine ⟨by decide, migration_reapply_noop migration0001 schemaAfter0001 (by decide) (by decide)⟩

/-! ## Schema inventory (tables and indexes created by the migrations) -/

def Migration.tableDefs (m : Migration) : List TableDef :=
  m.stmts.filterMap fun st =>
    match st with
    | .createTable _ t => some t
    | .createIndex _ _ => none

def Migration.indexDefs (m : Migration) : List IndexDef :=
  m.stmts.filterMap fun st =>
    match st with
    | .createTable _ _ => none
    | .createIndex _ i => some i

def allTableDefs : List TableDef :=
  (allMigrations.map Migration.tableDefs).flatten

def allTableNames : List String :=
  allTableDefs.map (fun t => t.name)

def allIndexDefs : List IndexDef :=
  (allMigrations.map Migration.indexDefs).flatten

/-- The eight tables enumerated in §3 of the spec (snake-case as in the DDL). -/
def coreTableNames : List String :=
  [ "manufacturers", "railway_companies", "railway_models", "rolling_stocks"
  , "collections", "collection_items", "owned_rolling_stocks", "purchase_infos" ]

/-- C7 counterexample: every table created by any migration of the repository
is one of the eight core tables; in particular no wishlist table and no
maintenance table is created anywhere, refuting the claim that the persisted
schema contains wishlist and maintenance tables. -/
theorem migrations_no_wishlist_or_maintenance_tables :
    (allTableNames.all fun n => coreTableNames.contains n) = true := by decide

/-- C7 (amended): the migrations create exactly the eight core tables
(manufacturers, railway_companies, railway_models, rolling_stocks, collections,
collection_items, owned_rolling_stocks, purchase_infos) — no wishlist or
maintenance tables — and every created table has exactly one primary-key
column, of SQL type TEXT, and every declared foreign key is ON DELETE
CASCADE. -/
theorem migrations_schema_inventory :
    ((coreTableNames.all fun n => allTableNames.contains n) = true) ∧
    ((allTableNames.all fun n => coreTableNames.contains n) = true) ∧
    ((allTableDefs.all fun t =>
        ((t.columns.filter fun c => c.isPrimaryKey).length == 1) &&
        (t.columns.all fun c => !c.isPrimaryKey || c.ty == .text)) = true) ∧
    ((allTableDefs.all fun t => t.fkeys.all fun fk => fk.onDeleteCascade) = true) := by
  refine ⟨by decide, by decide, by decide, by decide⟩

/-- C9 counterexample: no index created by any migration covers a `scale`,
`epoch`, `category`, `brand` or `manufacturer` column, so filters on brand,
scale, epoch and category have no index to use — refuting the claim that the
store maintains indexes on each of those filterable fields. -/
theorem migrations_no_filter_field_indexes :
    (allIndexDefs.all fun i =>
        !(i.columns.contains "scale" || i.columns.contains "epoch" ||
          i.columns.contains "category" || i.columns.contains "brand" ||
          i.columns.contains "manufacturer")) = true := by decide

/-- C9 (amended): the complete index inventory of the migrations — of the
filterable fields named by the claim only road number is indexed (on the
catalog `rolling_stocks` table); there is no index on brand, scale, epoch or
category. -/
theorem migrations_index_inventory :
    allIndexDefs.map (fun i => (i.table, i.columns)) =
      [ ("manufacturers", ["name"]), ("railway_companies", ["name"])
      , ("railway_models", ["product_code"]), ("rolling_stocks", ["road_number"])
      , ("rolling_stocks", ["railway_model_id"])
      , ("purchase_infos", ["collection_item_id"])
      , ("purchase_infos", ["purchase_type"]) ] ∧
    (allIndexDefs.contains
      { name := "idx_rolling_stock_road_number", table := "rolling_stocks"
        columns := ["road_number"], unique := false }) = true := by
  refine ⟨by decide, by decide⟩

/-! ## Typed relational store

One record type per table, with the columns of the DDL (latest shape,
`part_002`): `Option` for nullable columns, `Rat` for SQL `REAL`, `Int` for
SQL `INTEGER`.  The insert/delete operations below implement exactly the
SQLite semantics of the declared constraints: a PRIMARY KEY rejects duplicate
ids, the two `UNIQUE INDEX`es on `name` reject duplicate names, every declared
`FOREIGN KEY` is checked on insert and is `ON DELETE CASCADE` on delete.
Columns without a FOREIGN KEY clause (`collection_items.railway_model_id`,
`owned_rolling_stocks.catalog_rolling_stock_id`) are *not* constrained — the
DDL declares nothing for them. -/

structure Manufacturer where
  id : String
  name : String
  registered_company_name : Option String := none
  country_code : Option String := none
  created_at : String := ""
  updated_at : String := ""
deriving DecidableEq, Repr

structure RailwayCompany where
  id : String
  name : String
  registered_company_name : Option String := none
  country_code : Option String := none
  status : Option String := none
  created_at : String := ""
  updated_at : String := ""
deriving DecidableEq, Repr

structure RailwayModel where
  id : String
  manufacturer_id : String
  product_code : String
  description : String
  details : Option String := none
  power_method : String
  scale : String
  epoch : String
  category : String
  delivery_date : Option String := none
  availability_status : Option String := none
  created_at : String := ""
  updated_at : String := ""
deriving DecidableEq, Repr

structure RollingStock where
  id : String
  railway_model_id : String
  category : String
  railway_company_id : String
  railway_display : Option String := none
  livery : Option String := none
  length_inches : Option Rat := none
  length_millimeters : Option Rat := none
  technical_minimum_radius_mm : Option Rat := none
  technical_coupling : Option String := none
  technical_flywheel_fitted : Option String := none
  technical_body_shell : Option String := none
  technical_chassis : Option String := none
  technical_interior_lights : Option String := none
  technical_lights : Option String := none
  technical_sprung_buffers : Option String := none
  type_name : Option String := none
  class_name : Option String := none
  road_number : Option String := none
  series : Option String := none
  depot : Option String := none
  electric_multiple_unit_type : Option String := none
  freight_car_type : Option String := none
  locomotive_type : Option String := none
  passenger_car_type : Option String := none
  railcar_type : Option String := none
  service_level : Option String := none
  dcc_interface : Option String := none
  control : Option String := none
  is_dummy : Int := 0
deriving DecidableEq, Repr

structure Collection where
  id : String
  name : String
  locomotives_count : Int := 0
  passenger_cars_count : Int := 0
  freight_cars_count : Int := 0
  train_sets_count : Int := 0
  railcars_count : Int := 0
  electric_multiple_units_count : Int := 0
  total_value_amount : Int := 0
  total_value_currency : String := "EUR"
  created_at : String := ""
  updated_at : String := ""
deriving DecidableEq, Repr

structure CollectionItem where
  id : String
  collection_id : String
  railway_model_id : Option String := none
  manufacturer : String
  product_code : String
  description : Option String := none
  conditions : Option String := none
  power_method : Option String := none
  scale : Option String := none
  epoch : Option String := none
deriving DecidableEq, Repr

structure OwnedRollingStock where
  id : String
  item_id : String
  catalog_rolling_stock_id : Option String := none
  notes : Option String := none
  railway_id : String
  epoch : Option String := none
deriving DecidableEq, Repr

structure PurchaseInfo where
  purchase_id : String
  collection_item_id : String
  purchase_type : Option String := none
  purchase_date : String
  seller_id : Option String := none
  buyer_id : Option String := none
  sale_date : Option String := none
  purchased_price_amount : Option Int := none
  purchased_price_currency : Option String := none
  sale_price_amount : Option Int := none
  sale_price_currency : Option String := none
  deposit_amount : Option Int := none
  deposit_currency : Option String := none
  preorder_total_amount : Option Int := none
  preorder_total_currency : Option String := none
  expected_date : Option String := none
deriving DecidableEq, Repr

structure Db where
  manufacturers : List Manufacturer := []
  railway_companies : List RailwayCompany := []
  railway_models : List RailwayModel := []
  rolling_stocks : List RollingStock := []
  collections : List Collection := []
  collection_items : List CollectionItem := []
  owned_rolling_stocks : List OwnedRollingStock := []
  purchase_infos : List PurchaseInfo := []
deriving DecidableEq, Repr

def emptyDb : Db := {}

inductive RepoError
  | duplicateId (table id : String)
  | duplicateName (table name : String)
  | notFound (refKind id : String)
deriving DecidableEq, Repr

def Db.insertManufacturer (db : Db) (m : Manufacturer) : Except RepoError Db :=
  if db.manufacturers.any fun x => x.id == m.id then
    .error (.duplicateId "manufacturers" m.id)
  else if db.manufacturers.any fun x => x.name == m.name then
    .error (.duplicateName "manufacturers" m.name)
  else
    .ok { db with manufacturers := db.manufacturers ++ [m] }

def Db.insertRailwayCompany (db : Db) (c : RailwayCompany) : Except RepoError Db :=
  if db.railway_companies.any fun x => x.id == c.id then
    .error (.duplicateId "railway_companies" c.id)
  else if db.railway_companies.any fun x => x.name == c.name then
    .error (.duplicateName "railway_companies" c.name)
  else
    .ok { db with railway_companies := db.railway_companies ++ [c] }

/-- Insert for `railway_models`: checks the declared
`FOREIGN KEY (manufacturer_id) REFERENCES manufacturers (id)`. -/
def Db.insertRailwayModel (db : Db) (rm : RailwayModel) : Except RepoError Db :=
  if db.railway_models.any fun x => x.id == rm.id then
    .error (.duplicateId "railway_models" rm.id)
  else if !(db.manufacturers.any fun m => m.id == rm.manufacturer_id) then
    .error (.notFound "manufacturers" rm.manufacturer_id)
  else
    .ok { db with railway_models := db.railway_models ++ [rm] }

/-- Insert for `rolling_stocks`: checks the declared foreign keys on
`railway_model_id` and `railway_company_id`. -/
def Db.insertRollingStock (db : Db) (rs : RollingStock) : Except RepoError Db :=
  if db.rolling_stocks.any fun x => x.id == rs.id then
    .error (.duplicateId "rolling_stocks" rs.id)
  else if !(db.railway_models.any fun rm => rm.id == rs.railway_model_id) then
    .error (.notFound "railway_models" rs.railway_model_id)
  else if !(db.railway_companies.any fun c => c.id == rs.railway_company_id) then
    .error (.notFound "railway_companies" rs.railway_company_id)
  else
    .ok { db with rolling_stocks := db.rolling_stocks ++ [rs] }

def Db.insertCollection (db : Db) (c : Collection) : Except RepoError Db :=
  if db.collections.any fun x => x.id == c.id then
    .error (.duplicateId "collections" c.id)
  else
    .ok { db with collections := db.collections ++ [c] }

/-- Insert for `collection_items`: the DDL declares a foreign key only on
`collection_id`; `railway_model_id` has no FOREIGN KEY clause and is stored
unchecked. -/
def Db.insertCollectionItem (db : Db) (ci : CollectionItem) : Except RepoError Db :=
  if db.collection_items.any fun x => x.id == ci.id then
    .error (.duplicateId "collection_items" ci.id)
  else if !(db.collections.any fun c => c.id == ci.collection_id) then
    .error (.notFound "collections" ci.collection_id)
  else
    .ok { db with collection_items := db.collection_items ++ [ci] }

/-- Insert for `owned_rolling_stocks`: the DDL declares a foreign key only on
`item_id`; `catalog_rolling_stock_id` has no FOREIGN KEY clause and is stored
unchecked. -/
def Db.insertOwnedRollingStock (db : Db) (o : OwnedRollingStock) : Except RepoError Db :=
  if db.owned_rolling_stocks.any fun x => x.id == o.id then
    .error (.duplicateId "owned_rolling_stocks" o.id)
  else if !(db.collection_items.any fun ci => ci.id == o.item_id) then
    .error (.notFound "collection_items" o.item_id)
  else
    .ok { db with owned_rolling_stocks := db.owned_rolling_stocks ++ [o] }

def Db.insertPurchaseInfo (db : Db) (p : PurchaseInfo) : Except RepoError Db :=
  if db.purchase_infos.any fun x => x.purchase_id == p.purchase_id then
    .error (.duplicateId "purchase_infos" p.purchase_id)
  else if !(db.collection_items.any fun ci => ci.id == p.collection_item_id) then
    .error (.notFound "collection_items" p.collection_item_id)
  else
    .ok { db with purchase_infos := db.purchase_infos ++ [p] }

/-- Deleting a manufacturer: `railway_models.manufacturer_id` is
`ON DELETE CASCADE`, and each cascaded model deletion in turn cascades into
`rolling_stocks.railway_model_id`.  No other table declares a foreign key to
`manufacturers`, so nothing else changes. -/
def Db.deleteManufacturer (db : Db) (mid : String) : Db :=
  let deadModels := db.railway_models.filter fun rm => rm.manufacturer_id == mid
  { db with
    manufacturers := db.manufacturers.filter fun m => !(m.id == mid)
    railway_models := db.railway_models.filter fun rm => !(rm.manufacturer_id == mid)
    rolling_stocks := db.rolling_stocks.filter fun rs =>
      !(deadModels.any fun rm => rm.id == rs.railway_model_id) }

/-- Deleting a railway company: `rolling_stocks.railway_company_id` is
`ON DELETE CASCADE`; nothing else references `railway_companies`. -/
def Db.deleteRailwayCompany (db : Db) (cid : String) : Db :=
  { db with
    railway_companies := db.railway_companies.filter fun c => !(c.id == cid)
    rolling_stocks := db.rolling_stocks.filter fun rs => !(rs.railway_company_id == cid) }

/-- Deleting a railway model: `rolling_stocks.railway_model_id` is
`ON DELETE CASCADE`.  `collection_items.railway_model_id` has no FOREIGN KEY
clause in the DDL, so collection items are not touched (and not nulled). -/
def Db.deleteRailwayModel (db : Db) (rmid : String) : Db :=
  { db with
    railway_models := db.railway_models.filter fun rm => !(rm.id == rmid)
    rolling_stocks := db.rolling_stocks.filter fun rs => !(rs.railway_model_id == rmid) }

/-- Deleting a catalog rolling stock: no table declares a foreign key to
`rolling_stocks` (`owned_rolling_stocks.catalog_rolling_stock_id` has no
FOREIGN KEY clause), so only the row itself is removed. -/
def Db.deleteRollingStock (db : Db) (rsid : String) : Db :=
  { db with
    rolling_stocks := db.rolling_stocks.filter fun rs => !(rs.id == rsid) }

/-- Deleting a collection cascades into `collection_items.collection_id`, and
each cascaded item deletion in turn cascades into
`owned_rolling_stocks.item_id` and `purchase_infos.collection_item_id`. -/
def Db.deleteCollection (db : Db) (cid : String) : Db :=
  let deadItems := db.collection_items.filter fun ci => ci.collection_id == cid
  { db with
    collections := db.collections.filter fun c => !(c.id == cid)
    collection_items := db.collection_items.filter fun ci => !(ci.collection_id == cid)
    owned_rolling_stocks := db.owned_rolling_stocks.filter fun o =>
      !(deadItems.any fun ci => ci.id == o.item_id)
    purchase_infos := db.purchase_infos.filter fun p =>
      !(deadItems.any fun ci => ci.id == p.collection_item_id) }

/-- Deleting a collection item cascades into `owned_rolling_stocks.item_id`
and `purchase_infos.collection_item_id`. -/
def Db.deleteCollectionItem (db : Db) (iid : String) : Db :=
  { db with
    collection_items := db.collection_items.filter fun ci => !(ci.id == iid)
    owned_rolling_stocks := db.owned_rolling_stocks.filter fun o => !(o.item_id == iid)
    purchase_infos := db.purchase_infos.filter fun p => !(p.collection_item_id == iid) }

def Db.deleteOwnedRollingStock (db : Db) (oid : String) : Db :=
  { db with
    owned_rolling_stocks := db.owned_rolling_stocks.filter fun o => !(o.id == oid) }

def Db.deletePurchaseInfo (db : Db) (pid : String) : Db :=
  { db with
    purchase_infos := db.purchase_infos.filter fun p => !(p.purchase_id == pid) }

/-- The repository operations determined by the DDL (row creation and row
deletion per table, with the declared constraints). -/
inductive RepoOp
  | insManufacturer (m : Manufacturer)
  | insRailwayCompany (c : RailwayCompany)
  | insRailwayModel (rm : RailwayModel)
  | insRollingStock (rs : RollingStock)
  | insCollection (c : Collection)
  | insCollectionItem (ci : CollectionItem)
  | insOwnedRollingStock (o : OwnedRollingStock)
  | insPurchaseInfo (p : PurchaseInfo)
  | delManufacturer (id : String)
  | delRailwayCompany (id : String)
  | delRailwayModel (id : String)
  | delRollingStock (id : String)
  | delCollection (id : String)
  | delCollectionItem (id : String)
  | delOwnedRollingStock (id : String)
  | delPurchaseInfo (id : String)
deriving DecidableEq, Repr

def applyRepoOp (db : Db) : RepoOp → Except RepoError Db
  | .insManufacturer m => db.insertManufacturer m
  | .insRailwayCompany c => db.insertRailwayCompany c
  | .insRailwayModel rm => db.insertRailwayModel rm
  | .insRollingStock rs => db.insertRollingStock rs
  | .insCollection c => db.insertCollection c
  | .insCollectionItem ci => db.insertCollectionItem ci
  | .insOwnedRollingStock o => db.insertOwnedRollingStock o
  | .insPurchaseInfo p => db.insertPurchaseInfo p
  | .delManufacturer i => .ok (db.deleteManufacturer i)
  | .delRailwayCompany i => .ok (db.deleteRailwayCompany i)
  | .delRailwayModel i => .ok (db.deleteRailwayModel i)
  | .delRollingStock i => .ok (db.deleteRollingStock i)
  | .delCollection i => .ok (db.deleteCollection i)
  | .delCollectionItem i => .ok (db.deleteCollectionItem i)
  | .delOwnedRollingStock i => .ok (db.deleteOwnedRollingStock i)
  | .delPurchaseInfo i => .ok (db.deletePurchaseInfo i)

def runRepoOps : List RepoOp → Db → Except RepoError Db
  | [], db => .ok db
  | op :: rest, db =>
      match applyRepoOp db op with
      | .ok db2 => runRepoOps rest db2
      | .error e => .error e

/-! ## Cascade-delete theorems -/

/-- C1: for every store and every RailwayModel id, after
`deleteRailwayModel` no railway-model row with that id and no rolling-stock
row whose `railway_model_id` references it remains queryable (the declared
`ON DELETE CASCADE` on `rolling_stocks.railway_model_id`). -/
theorem railway_model_delete_cascades (db : Db) (rmid : String) :
    (((db.deleteRailwayModel rmid).railway_models.all fun rm => !(rm.id == rmid)) = true) ∧
    (((db.deleteRailwayModel rmid).rolling_stocks.all fun rs => !(rs.railway_model_id == rmid)) = true) := by
  constructor <;>
  · simp only [Db.deleteRailwayModel, List.all_eq_true, List.mem_filter]
    intro x hx
    exact hx.2

/-- A store in which the catalog row `rm1` is weakly referenced by a
collection item and the catalog rolling stock `rs1` is weakly referenced by an
owned rolling stock. -/
def dbWeakRefs : Db :=
  { manufacturers := [{ id := "m1", name := "ACME" }]
    railway_companies := [{ id := "rc1", name := "FS" }]
    railway_models := [{ id := "rm1", manufacturer_id := "m1", product_code := "40152"
                         description := "electric locomotive", power_method := "DC"
                         scale := "H0", epoch := "IV", category := "LOCOMOTIVES" }]
    rolling_stocks := [{ id := "rs1", railway_model_id := "rm1"
                         category := "LOCOMOTIVES", railway_company_id := "rc1" }]
    collections := [{ id := "c1", name := "my collection" }]
    collection_items := [{ id := "ci1", collection_id := "c1"
                           railway_model_id := some "rm1"
                           manufacturer := "ACME", product_code := "40152" }]
    owned_rolling_stocks := [{ id := "o1", item_id := "ci1"
                               catalog_rolling_stock_id := some "rs1"
                               railway_id := "rc1" }] }

/-- C3 counterexample: deleting the weakly-referenced catalog row `rm1`
succeeds and removes the catalog rows, but the referencing collection item
keeps `railway_model_id = some "rm1"` and the owned rolling stock keeps
`catalog_rolling_stock_id = some "rs1"` — the weak references are *not* set to
null (the DDL has no FOREIGN KEY clause, hence no ON DELETE SET NULL, on
either column). -/
theorem weak_reference_not_nulled :
    (dbWeakRefs.deleteRailwayModel "rm1").railway_models = [] ∧
    (dbWeakRefs.deleteRailwayModel "rm1").rolling_stocks = [] ∧
    ((dbWeakRefs.deleteRailwayModel "rm1").collection_items.map
        fun ci => ci.railway_model_id) = [some "rm1"] ∧
    ((dbWeakRefs.deleteRailwayModel "rm1").owned_rolling_stocks.map
        fun o => o.catalog_rolling_stock_id) = [some "rs1"] := by
  refine ⟨by decide, by decide, by decide, by decide⟩

/-- C3 (amended): deleting a weakly-referenced catalog row (a RailwayModel, or
a catalog RollingStock) always succeeds and neither blocks nor
cascade-deletes the referencing rows, but it leaves the referencing rows —
including their stored weak-reference values — entirely unchanged (dangling)
rather than setting them to null. -/
theorem catalog_delete_leaves_weak_referrers_untouched (db : Db) (rmid rsid : String) :
    (db.deleteRailwayModel rmid).collection_items = db.collection_items ∧
    (db.deleteRailwayModel rmid).owned_rolling_stocks = db.owned_rolling_stocks ∧
    (db.deleteRollingStock rsid).collection_items = db.collection_items ∧
    (db.deleteRollingStock rsid).owned_rolling_stocks = db.owned_rolling_stocks :=
  ⟨rfl, rfl, rfl, rfl⟩

/-- C8 counterexample: a collection item records manufacturer "ACME" (the name
of manufacturer `m1`) and weakly references its railway model, and an owned
rolling stock weakly references its rolling stock; deleting `m1` removes the
whole catalog subtree but deletes no ownership record — both survive
unchanged, refuting "every ownership record that references it is deleted
along with it". -/
theorem ownership_records_survive_manufacturer_delete :
    (dbWeakRefs.deleteManufacturer "m1").manufacturers = [] ∧
    (dbWeakRefs.deleteManufacturer "m1").railway_models = [] ∧
    (dbWeakRefs.deleteManufacturer "m1").rolling_stocks = [] ∧
    (dbWeakRefs.deleteManufacturer "m1").collection_items = dbWeakRefs.collection_items ∧
    (dbWeakRefs.deleteManufacturer "m1").owned_rolling_stocks = dbWeakRefs.owned_rolling_stocks ∧
    (dbWeakRefs.collection_items.map fun ci => ci.manufacturer) = ["ACME"] ∧
    (dbWeakRefs.manufacturers.map fun m => m.name) = ["ACME"] := by
  refine ⟨by decide, by decide, by decide, by decide, by decide, by decide, by decide⟩

/-- C8 (amended): deleting a Manufacturer cascades to every railway model
referencing it and transitively to those models' rolling stocks, and deleting
a RailwayCompany cascades to every rolling stock referencing it; ownership
records (collection_items, owned_rolling_stocks) are never deleted by these
cascades — they reference manufacturers only by denormalized name and the
catalog only through unconstrained weak id columns. -/
theorem reference_entity_delete_cascades (db : Db) (mid cid : String) :
    (((db.deleteManufacturer mid).manufacturers.all fun m => !(m.id == mid)) = true) ∧
    (((db.deleteManufacturer mid).railway_models.all fun rm => !(rm.manufacturer_id == mid)) = true) ∧
    (((db.deleteManufacturer mid).rolling_stocks.all fun rs =>
        !(db.railway_models.any fun rm =>
            (rm.manufacturer_id == mid) && (rm.id == rs.railway_model_id))) = true) ∧
    (db.deleteManufacturer mid).collection_items = db.collection_items ∧
    (db.deleteManufacturer mid).owned_rolling_stocks = db.owned_rolling_stocks ∧
    (((db.deleteRailwayCompany cid).railway_companies.all fun c => !(c.id == cid)) = true) ∧
    (((db.deleteRailwayCompany cid).rolling_stocks.all fun rs => !(rs.railway_company_id == cid)) = true) ∧
    (db.deleteRailwayCompany cid).collection_items = db.collection_items ∧
    (db.deleteRailwayCompany cid).owned_rolling_stocks = db.owned_rolling_stocks := by
  refine ⟨?_, ?_, ?_, rfl, rfl, ?_, ?_, rfl, rfl⟩
  · simp only [Db.deleteManufacturer, List.all_eq_true, List.mem_filter]
    intro x hx
    exact hx.2
  · simp only [Db.deleteManufacturer, List.all_eq_true, List.mem_filter]
    intro x hx
    exact hx.2
  · simp only [Db.deleteManufacturer, List.all_eq_true, List.mem_filter]
    intro rs hrs
    have h2 := hrs.2
    rw [Bool.not_eq_true', List.any_eq_false] at h2 ⊢
    intro rm hrm hb
    rw [Bool.and_eq_true] at hb
    exact h2 rm (List.mem_filter.2 ⟨hrm, hb.1⟩) hb.2
  · simp only [Db.deleteRailwayCompany, List.all_eq_true, List.mem_filter]
    intro x hx
    exact hx.2
  · simp only [Db.deleteRailwayCompany, List.all_eq_true, List.mem_filter]
    intro x hx
    exact hx.2

/-! ## Referential integrity of the declared foreign keys -/

/-- Every child row's foreign-key value resolves to some parent row. -/
def refsOk {α β : Type} (children : List α) (parents : List β)
    (fk : α → String) (pid : β → String) : Prop :=
  ∀ c ∈ children, ∃ p ∈ parents, pid p = fk c

instance {α β : Type} (ch : List α) (par : List β) (fk : α → String) (pid : β → String) :
    Decidable (refsOk ch par fk pid) := by
  unfold refsOk; infer_instance

theorem refsOk_append_child {α β : Type} {ch : List α} {par : List β}
    {fk : α → String} {pid : β → String} (h : refsOk ch par fk pid) {a : α}
    (ha : ∃ p ∈ par, pid p = fk a) : refsOk (ch ++ [a]) par fk pid := by
  intro c hc
  rcases List.mem_append.1 hc with h1 | h1
  · exact h c h1
  · rw [List.mem_singleton] at h1
    subst h1
    exact ha

theorem refsOk_append_parent {α β : Type} {ch : List α} {par : List β}
    {fk : α → String} {pid : β → String} (h : refsOk ch par fk pid) (b : β) :
    refsOk ch (par ++ [b]) fk pid := by
  intro c hc
  obtain ⟨p, hp, he⟩ := h c hc
  exact ⟨p, List.mem_append_left _ hp, he⟩

theorem refsOk_filter_child {α β : Type} {ch : List α} {par : List β}
    {fk : α → String} {pid : β → String} (h : refsOk ch par fk pid) (q : α → Bool) :
    refsOk (ch.filter q) par fk pid :=
  fun c hc => h c (List.mem_filter.1 hc).1

/-- Deleting the parent row with id `x` together with every child row whose
foreign key names `x` preserves resolution. -/
theorem refsOk_delete_parent {α β : Type} {ch : List α} {par : List β}
    {fk : α → String} {pid : β → String} (h : refsOk ch par fk pid) (x : String) :
    refsOk (ch.filter fun c => !(fk c == x)) (par.filter fun p => !(pid p == x)) fk pid := by
  intro c hc
  rw [List.mem_filter] at hc
  obtain ⟨p, hp, he⟩ := h c hc.1
  refine ⟨p, List.mem_filter.2 ⟨hp, ?_⟩, he⟩
  rw [he]
  exact hc.2

/-- Cascading a parent-side deletion (`bad` marks the parent rows being
deleted) into the children preserves resolution. -/
theorem refsOk_delete_cascade {α β : Type} {ch : List α} {par : List β}
    {fk : α → String} {pid : β → String} (h : refsOk ch par fk pid) (bad : β → Bool) :
    refsOk (ch.filter fun c => !((par.filter bad).any fun p => pid p == fk c))
      (par.filter fun p => !(bad p)) fk pid := by
  intro c hc
  rw [List.mem_filter] at hc
  obtain ⟨p, hp, he⟩ := h c hc.1
  refine ⟨p, List.mem_filter.2 ⟨hp, ?_⟩, he⟩
  have h2 := hc.2
  rw [Bool.not_eq_true', List.any_eq_false] at h2
  rw [Bool.not_eq_true']
  by_contra hb
  rw [Bool.not_eq_false] at hb
  exact (h2 p (List.mem_filter.2 ⟨hp, hb⟩)) (by rw [he]; exact beq_self_eq_true _)

/-- All columns carrying a declared FOREIGN KEY clause resolve to an existing
row (the six declared foreign keys of the DDL). -/
def declaredFKsResolve (db : Db) : Prop :=
  refsOk db.railway_models db.manufacturers (fun rm => rm.manufacturer_id) (fun m => m.id) ∧
  refsOk db.rolling_stocks db.railway_models (fun rs => rs.railway_model_id) (fun rm => rm.id) ∧
  refsOk db.rolling_stocks db.railway_companies (fun rs => rs.railway_company_id) (fun c => c.id) ∧
  refsOk db.collection_items db.collections (fun ci => ci.collection_id) (fun c => c.id) ∧
  refsOk db.owned_rolling_stocks db.collection_items (fun o => o.item_id) (fun ci => ci.id) ∧
  refsOk db.purchase_infos db.collection_items (fun p => p.collection_item_id) (fun ci => ci.id)

instance (db : Db) : Decidable (declaredFKsResolve db) := by
  unfold declaredFKsResolve; infer_instance

/-- The weak (FOREIGN-KEY-less) reference columns resolve when non-null. -/
def weakRefOk (ref : Option String) (ids : List String) : Bool :=
  match ref with
  | none => true
  | some rid => ids.contains rid

def weakRefsResolve (db : Db) : Prop :=
  (db.collection_items.all fun ci =>
      weakRefOk ci.railway_model_id (db.railway_models.map fun rm => rm.id)) = true ∧
  (db.owned_rolling_stocks.all fun o =>
      weakRefOk o.catalog_rolling_stock_id (db.rolling_stocks.map fun rs => rs.id)) = true

instance (db : Db) : Decidable (weakRefsResolve db) := by
  unfold weakRefsResolve; infer_instance

theorem anyBeq_to_exists {β : Type} {par : List β} {pid : β → String} {v : String}
    (h : (par.any fun p => pid p == v) = true) : ∃ p ∈ par, pid p = v := by
  obtain ⟨p, hp, he⟩ := List.any_eq_true.1 h
  exact ⟨p, hp, by rwa [beq_iff_eq] at he⟩

theorem guard_any_true {b : Bool} (h : ¬(!b) = true) : b = true := by
  cases b
  · exact absurd rfl h
  · rfl

theorem insertManufacturer_preserves {db db' : Db} {m : Manufacturer}
    (hinv : declaredFKsResolve db) (h : db.insertManufacturer m = .ok db') :
    declaredFKsResolve db' := by
  obtain ⟨h1, h2, h3, h4, h5, h6⟩ := hinv
  unfold Db.insertManufacturer at h
  split at h
  · exact Except.noConfusion h
  split at h
  · exact Except.noConfusion h
  injection h with h
  subst h
  exact ⟨refsOk_append_parent h1 m, h2, h3, h4, h5, h6⟩

theorem insertRailwayCompany_preserves {db db' : Db} {c : RailwayCompany}
    (hinv : declaredFKsResolve db) (h : db.insertRailwayCompany c = .ok db') :
    declaredFKsResolve db' := by
  obtain ⟨h1, h2, h3, h4, h5, h6⟩ := hinv
  unfold Db.insertRailwayCompany at h
  split at h
  · exact Except.noConfusion h
  split at h
  · exact Except.noConfusion h
  injection h with h
  subst h
  exact ⟨h1, h2, refsOk_append_parent h3 c, h4, h5, h6⟩

theorem insertRailwayModel_preserves {db db' : Db} {rm : RailwayModel}
    (hinv : declaredFKsResolve db) (h : db.insertRailwayModel rm = .ok db') :
    declaredFKsResolve db' := by
  obtain ⟨h1, h2, h3, h4, h5, h6⟩ := hinv
  unfold Db.insertRailwayModel at h
  split at h
  · exact Except.noConfusion h
  split at h
  · exact Except.noConfusion h
  next hfk =>
  injection h with h
  subst h
  exact ⟨refsOk_append_child h1 (anyBeq_to_exists (guard_any_true hfk)),
    refsOk_append_parent h2 rm, h3, h4, h5, h6⟩

theorem insertRollingStock_preserves {db db' : Db} {rs : RollingStock}
    (hinv : declaredFKsResolve db) (h : db.insertRollingStock rs = .ok db') :
    declaredFKsResolve db' := by
  obtain ⟨h1, h2, h3, h4, h5, h6⟩ := hinv
  unfold Db.insertRollingStock at h
  split at h
  · exact Except.noConfusion h
  split at h
  · exact Except.noConfusion h
  next hfk1 =>
  split at h
  · exact Except.noConfusion h
  next hfk2 =>
  injection h with h
  subst h
  exact ⟨h1, refsOk_append_child h2 (anyBeq_to_exists (guard_any_true hfk1)),
    refsOk_append_child h3 (anyBeq_to_exists (guard_any_true hfk2)), h4, h5, h6⟩

theorem insertCollection_preserves {db db' : Db} {c : Collection}
    (hinv : declaredFKsResolve db) (h : db.insertCollection c = .ok db') :
    declaredFKsResolve db' := by
  obtain ⟨h1, h2, h3, h4, h5, h6⟩ := hinv
  unfold Db.insertCollection at h
  split at h
  · exact Except.noConfusion h
  injection h with h
  subst h
  exact ⟨h1, h2, h3, refsOk_append_parent h4 c, h5, h6⟩

theorem insertCollectionItem_preserves {db db' : Db} {ci : CollectionItem}
    (hinv : declaredFKsResolve db) (h : db.insertCollectionItem ci = .ok db') :
    declaredFKsResolve db' := by
  obtain ⟨h1, h2, h3, h4, h5, h6⟩ := hinv
  unfold Db.insertCollectionItem at h
  split at h
  · exact Except.noConfusion h
  split at h
  · exact Except.noConfusion h
  next hfk =>
  injection h with h
  subst h
  exact ⟨h1, h2, h3, refsOk_append_child h4 (anyBeq_to_exists (guard_any_true hfk)),
    refsOk_append_parent h5 ci, refsOk_append_parent h6 ci⟩

theorem insertOwnedRollingStock_preserves {db db' : Db} {o : OwnedRollingStock}
    (hinv : declaredFKsResolve db) (h : db.insertOwnedRollingStock o = .ok db') :
    declaredFKsResolve db' := by
  obtain ⟨h1, h2, h3, h4, h5, h6⟩ := hinv
  unfold Db.insertOwnedRollingStock at h
  split at h
  · exact Except.noConfusion h
  split at h
  · exact Except.noConfusion h
  next hfk =>
  injection h with h
  subst h
  exact ⟨h1, h2, h3, h4, refsOk_append_child h5 (anyBeq_to_exists (guard_any_true hfk)), h6⟩

theorem insertPurchaseInfo_preserves {db db' : Db} {p : PurchaseInfo}
    (hinv : declaredFKsResolve db) (h : db.insertPurchaseInfo p = .ok db') :
    declaredFKsResolve db' := by
  obtain ⟨h1, h2, h3, h4, h5, h6⟩ := hinv
  unfold Db.insertPurchaseInfo at h
  split at h
  · exact Except.noConfusion h
  split at h
  · exact Except.noConfusion h
  next hfk =>
  injection h with h
  subst h
  exact ⟨h1, h2, h3, h4, h5, refsOk_append_child h6 (anyBeq_to_exists (guard_any_true hfk))⟩

theorem deleteManufacturer_preserves {db : Db} (mid : String)
    (hinv : declaredFKsResolve db) : declaredFKsResolve (db.deleteManufacturer mid) := by
  obtain ⟨h1, h2, h3, h4, h5, h6⟩ := hinv
  exact ⟨refsOk_delete_parent h1 mid,
    refsOk_delete_cascade h2 (fun rm => rm.manufacturer_id == mid),
    refsOk_filter_child h3 _, h4, h5, h6⟩

theorem deleteRailwayCompany_preserves {db : Db} (cid : String)
    (hinv : declaredFKsResolve db) : declaredFKsResolve (db.deleteRailwayCompany cid) := by
  obtain ⟨h1, h2, h3, h4, h5, h6⟩ := hinv
  exact ⟨h1, refsOk_filter_child h2 _, refsOk_delete_parent h3 cid, h4, h5, h6⟩

theorem deleteRailwayModel_preserves {db : Db} (rmid : String)
    (hinv : declaredFKsResolve db) : declaredFKsResolve (db.deleteRailwayModel rmid) := by
  obtain ⟨h1, h2, h3, h4, h5, h6⟩ := hinv
  exact ⟨refsOk_filter_child h1 _, refsOk_delete_parent h2 rmid,
    refsOk_filter_child h3 _, h4, h5, h6⟩

theorem deleteRollingStock_preserves {db : Db} (rsid : String)
    (hinv : declaredFKsResolve db) : declaredFKsResolve (db.deleteRollingStock rsid) := by
  obtain ⟨h1, h2, h3, h4, h5, h6⟩ := hinv
  exact ⟨h1, refsOk_filter_child h2 _, refsOk_filter_child h3 _, h4, h5, h6⟩

theorem deleteCollection_preserves {db : Db} (cid : String)
    (hinv : declaredFKsResolve db) : declaredFKsResolve (db.deleteCollection cid) := by
  obtain ⟨h1, h2, h3, h4, h5, h6⟩ := hinv
  exact ⟨h1, h2, h3, refsOk_delete_parent h4 cid,
    refsOk_delete_cascade h5 (fun ci => ci.collection_id == cid),
    refsOk_delete_cascade h6 (fun ci => ci.collection_id == cid)⟩

theorem deleteCollectionItem_preserves {db : Db} (iid : String)
    (hinv : declaredFKsResolve db) : declaredFKsResolve (db.deleteCollectionItem iid) := by
  obtain ⟨h1, h2, h3, h4, h5, h6⟩ := hinv
  exact ⟨h1, h2, h3, refsOk_filter_child h4 _,
    refsOk_delete_parent h5 iid, refsOk_delete_parent h6 iid⟩

theorem deleteOwnedRollingStock_preserves {db : Db} (oid : String)
    (hinv : declaredFKsResolve db) : declaredFKsResolve (db.deleteOwnedRollingStock oid) := by
  obtain ⟨h1, h2, h3, h4, h5, h6⟩ := hinv
  exact ⟨h1, h2, h3, h4, refsOk_filter_child h5 _, h6⟩

theorem deletePurchaseInfo_preserves {db : Db} (pid : String)
    (hinv : declaredFKsResolve db) : declaredFKsResolve (db.deletePurchaseInfo pid) := by
  obtain ⟨h1, h2, h3, h4, h5, h6⟩ := hinv
  exact ⟨h1, h2, h3, h4, h5, refsOk_filter_child h6 _⟩

theorem applyRepoOp_preserves {db db' : Db} {op : RepoOp}
    (hinv : declaredFKsResolve db) (h : applyRepoOp db op = .ok db') :
    declaredFKsResolve db' := by
  cases op with
  | insManufacturer m => exact insertManufacturer_preserves hinv h
  | insRailwayCompany c => exact insertRailwayCompany_preserves hinv h
  | insRailwayModel rm => exact insertRailwayModel_preserves hinv h
  | insRollingStock rs => exact insertRollingStock_preserves hinv h
  | insCollection c => exact insertCollection_preserves hinv h
  | insCollectionItem ci => exact insertCollectionItem_preserves hinv h
  | insOwnedRollingStock o => exact insertOwnedRollingStock_preserves hinv h
  | insPurchaseInfo p => exact insertPurchaseInfo_preserves hinv h
  | delManufacturer i =>
      injection h with h
      exact h ▸ deleteManufacturer_preserves i hinv
  | delRailwayCompany i =>
      injection h with h
      exact h ▸ deleteRailwayCompany_preserves i hinv
  | delRailwayModel i =>
      injection h with h
      exact h ▸ deleteRailwayModel_preserves i hinv
  | delRollingStock i =>
      injection h with h
      exact h ▸ deleteRollingStock_preserves i hinv
  | delCollection i =>
      injection h with h
      exact h ▸ deleteCollection_preserves i hinv
  | delCollectionItem i =>
      injection h with h
      exact h ▸ deleteCollectionItem_preserves i hinv
  | delOwnedRollingStock i =>
      injection h with h
      exact h ▸ deleteOwnedRollingStock_preserves i hinv
  | delPurchaseInfo i =>
      injection h with h
      exact h ▸ deletePurchaseInfo_preserves i hinv

theorem runRepoOps_preserves {ops : List RepoOp} {db0 db : Db}
    (hinv : declaredFKsResolve db0) (h : runRepoOps ops db0 = .ok db) :
    declaredFKsResolve db := by
  induction ops generalizing db0 with
  | nil =>
      rw [runRepoOps] at h
      injection h with h
      exact h ▸ hinv
  | cons op rest ih =>
      rw [runRepoOps] at h
      cases heq : applyRepoOp db0 op with
      | ok db1 =>
          rw [heq] at h
          exact ih (applyRepoOp_preserves hinv heq) h
      | error e =>
          rw [heq] at h
          exact Except.noConfusion h

/-- Operation sequence reaching a store with a dangling weak reference: create
a collection, a manufacturer, a catalog model, an owned item weakly pointing
at the model, then delete the model. -/
def danglingOps : List RepoOp :=
  [ .insCollection { id := "c1", name := "my collection" }
  , .insManufacturer { id := "m1", name := "ACME" }
  , .insRailwayModel { id := "rm1", manufacturer_id := "m1", product_code := "40152"
                       description := "electric locomotive", power_method := "DC"
                       scale := "H0", epoch := "IV", category := "LOCOMOTIVES" }
  , .insCollectionItem { id := "ci1", collection_id := "c1"
                         railway_model_id := some "rm1", manufacturer := "ACME"
                         product_code := "40152" }
  , .delRailwayModel "rm1" ]

/-- The store `danglingOps` reaches: the collection item still stores
`railway_model_id = some "rm1"` although no railway model exists. -/
def danglingDb : Db :=
  { manufacturers := [{ id := "m1", name := "ACME" }]
    collections := [{ id := "c1", name := "my collection" }]
    collection_items := [{ id := "ci1", collection_id := "c1"
                           railway_model_id := some "rm1"
                           manufacturer := "ACME", product_code := "40152" }] }

/-- C4 counterexample: the state `danglingDb` is reachable from the empty
store by repository operations, yet its collection item's non-null
`railway_model_id` value resolves to no existing row — deleting a weakly
referenced catalog row leaves a dangling reference, refuting the claim that
every non-null foreign-key value in every reachable state resolves. -/
theorem dangling_weak_reference_reachable :
    runRepoOps danglingOps emptyDb = .ok danglingDb ∧ ¬ weakRefsResolve danglingDb := by
  refine ⟨by rfl, by decide⟩

/-- C4 (amended): in every store state reachable from the empty store by
repository operations, every value of a column carrying a declared FOREIGN KEY
clause resolves to an existing row; the two FOREIGN-KEY-less weak columns
(`collection_items.railway_model_id`,
`owned_rolling_stocks.catalog_rolling_stock_id`) are exempt and may dangle. -/
theorem reachable_declared_fks_resolve (ops : List RepoOp) (db : Db)
    (h : runRepoOps ops emptyDb = .ok db) : declaredFKsResolve db :=
  runRepoOps_preserves (by decide) h

/-- Witness for the amended C4 at a concrete input: the operation sequence
`danglingOps` succeeds and its final state satisfies the declared-foreign-key
invariant. -/
theorem reachable_declared_fks_resolve_witness :
    declaredFKsResolve danglingDb :=
  reachable_declared_fks_resolve danglingOps danglingDb (by rfl)

/-! ## Value Canonicalizer (no code in the repository; modelled from the spec) -/

/-- Modelled from the spec: the ISO 4217 currency table with minor-unit scales
(§4.1 "rejects currency codes not in the ISO 4217 set"; §3 Price "integer
minor-units").  The repository contains no canonicalizer code; a
representative subset of the ISO table is used. -/
def iso4217 : List (String × Nat) :=
  [ ("EUR", 2), ("USD", 2), ("GBP", 2), ("CHF", 2), ("SEK", 2)
  , ("PLN", 2), ("CZK", 2), ("JPY", 0) ]

/-- Modelled from the spec: `Price { amount: integer minor-units, currency:
ISO 4217 code }` (§3). -/
structure Price where
  amount : Int
  currency : String
deriving DecidableEq, Repr

inductive CanonError
  | invalidCurrency (code : String)
  | notRepresentable
deriving DecidableEq, Repr

/-- The minor-unit scale of a currency code (2 for EUR). -/
def minorUnits (code : String) : Nat :=
  ((iso4217.find? fun p => p.1 == code).map Prod.snd).getD 2

/-- Modelled from the spec: `toPrice(rawAmount, currencyCode) → Price |
Error(InvalidCurrency)`; rejects codes not in the ISO 4217 set and amounts not
representable as a fixed-point integer at the currency's minor-unit scale
(§4.1); `35.00 EUR` becomes amount `3500` (§3).  The raw amount is a decimal,
embedded as `Rat`. -/
def toPrice (rawAmount : Rat) (currencyCode : String) : Except CanonError Price :=
  match iso4217.find? fun p => p.1 == currencyCode with
  | none => .error (.invalidCurrency currencyCode)
  | some (_, mu) =>
      let scaled := rawAmount * (10 : Rat) ^ mu
      if scaled.den = 1 then
        .ok { amount := scaled.num, currency := currencyCode }
      else
        .error .notRepresentable

/-- The raw decimal a canonical `Price` denotes (minor units scaled back). -/
def Price.rawValue (p : Price) : Rat :=
  (p.amount : Rat) / (10 : Rat) ^ minorUnits p.currency

/-- C5: `toPrice 35.00 "EUR"` yields the canonical
`{amount := 3500, currency := "EUR"}`, and canonicalization is idempotent:
re-canonicalizing the value denoted by any canonical `Price` returns the same
`Price` unchanged. -/
theorem toPrice_eur_and_idempotent :
    toPrice 35 "EUR" = .ok { amount := 3500, currency := "EUR" } ∧
    (∀ (raw : Rat) (code : String) (p : Price), toPrice raw code = .ok p →
      toPrice p.rawValue code = .ok p) := by
  constructor
  · have hfind : (iso4217.find? fun p => p.1 == "EUR") = some ("EUR", 2) := rfl
    have h1 : ((35 : Rat) * (10 : Rat) ^ (2 : Nat)).den = 1 := by norm_num
    have h2 : ((35 : Rat) * (10 : Rat) ^ (2 : Nat)).num = 3500 := by norm_num
    unfold toPrice
    rw [hfind]
    simp [h1, h2]
  · intro raw code p h
    unfold toPrice at h
    cases hf : iso4217.find? fun q => q.1 == code with
    | none => rw [hf] at h; exact Except.noConfusion h
    | some pair =>
        obtain ⟨c, mu⟩ := pair
        rw [hf] at h
        simp only at h
        split at h
        case isFalse => exact Except.noConfusion h
        case isTrue hden =>
        injection h with h
        subst h
        have hcur : minorUnits code = mu := by
          unfold minorUnits
          rw [hf]
          rfl
        unfold toPrice Price.rawValue
        rw [hf]
        simp only [hcur]
        have hpow : ((10 : Rat) ^ mu) ≠ 0 := by positivity
        have hval : ((raw * (10 : Rat) ^ mu).num : Rat) / (10 : Rat) ^ mu * (10 : Rat) ^ mu
            = ((raw * (10 : Rat) ^ mu).num : Rat) := div_mul_cancel₀ _ hpow
        rw [hval]
        simp [Rat.den_intCast, Rat.num_intCast]

/-- Witness for the idempotence half of C5 at a concrete input: the canonical
price obtained from `toPrice 35 "EUR"` re-canonicalizes to itself. -/
theorem toPrice_eur_and_idempotent_witness :
    toPrice (Price.rawValue { amount := 3500, currency := "EUR" }) "EUR"
      = .ok { amount := 3500, currency := "EUR" } :=
  toPrice_eur_and_idempotent.2 35 "EUR" { amount := 3500, currency := "EUR" }
    toPrice_eur_and_idempotent.1

/-! ## Wishlist Manager (no code in the repository; modelled from the spec) -/

/-- Modelled from the spec: `WishListEntry` with `position` "integer defining
stable order within the list" (§3). -/
structure WishListEntry where
  id : String
  wishlistId : String := ""
  referencedItemNumber : String := ""
  note : String := ""
  priority : Nat := 0
  position : Nat := 0
deriving DecidableEq, Repr

/-- Modelled from the spec: `WishList` as an ordered sequence of entries
(§3). -/
structure WishList where
  id : String
  name : String := ""
  description : String := ""
  entries : List WishListEntry := []
deriving DecidableEq, Repr

inductive WishError
  | invariantViolation
deriving DecidableEq, Repr

/-- Rewrite the `position` values of the entries, in order, to `n, n+1, …`. -/
def renumberFrom (n : Nat) : List WishListEntry → List WishListEntry
  | [] => []
  | e :: es => { e with position := n } :: renumberFrom (n + 1) es

/-- Modelled from the spec: `addEntry … → appended at tail` (§4.5), with the
next dense position. -/
def WishList.addEntry (wl : WishList) (e : WishListEntry) : WishList :=
  { wl with entries := wl.entries ++ [{ e with position := wl.entries.length }] }

/-- Modelled from the spec: `removeEntry(entryId) → renumbers remaining
positions to stay dense` (§4.5). -/
def WishList.removeEntry (wl : WishList) (entryId : String) : WishList :=
  { wl with entries := renumberFrom 0 (wl.entries.filter fun e => !(e.id == entryId)) }

/-- The given id list exactly matches the current entry id set. -/
def idsMatch (orderedIds current : List String) : Bool :=
  (orderedIds.length == current.length) &&
    (orderedIds.all fun i => current.contains i) &&
    (current.all fun i => orderedIds.contains i)

/-- Modelled from the spec: `reorder(wishlistId, orderedEntryIds) →
Error(InvariantViolation)` if the id set does not exactly match the current
entry set, else atomically rewrites all `position` values (§4.5). -/
def WishList.reorder (wl : WishList) (orderedIds : List String) : Except WishError WishList :=
  if idsMatch orderedIds (wl.entries.map fun e => e.id) then
    .ok { wl with entries :=
            renumberFrom 0 (orderedIds.filterMap fun i => wl.entries.find? fun e => e.id == i) }
  else
    .error .invariantViolation

inductive WishMutation
  | addEntry (e : WishListEntry)
  | removeEntry (entryId : String)
  | reorder (orderedIds : List String)
deriving DecidableEq, Repr

def applyWishMutation (wl : WishList) : WishMutation → Except WishError WishList
  | .addEntry e => .ok (wl.addEntry e)
  | .removeEntry i => .ok (wl.removeEntry i)
  | .reorder ids => wl.reorder ids

def runWishMutations : List WishMutation → WishList → Except WishError WishList
  | [], wl => .ok wl
  | m :: rest, wl =>
      match applyWishMutation wl m with
      | .ok wl2 => runWishMutations rest wl2
      | .error e => .error e

/-- The surviving entries' positions form the dense zero-based sequence
`0, 1, …, n-1` (no duplicates, no gaps). -/
def densePositions (wl : WishList) : Prop :=
  (wl.entries.map fun e => e.position) = List.range wl.entries.length

instance (wl : WishList) : Decidable (densePositions wl) := by
  unfold densePositions; infer_instance

theorem renumberFrom_map_position (n : Nat) (l : List WishListEntry) :
    ((renumberFrom n l).map fun e => e.position) = List.range' n l.length := by
  induction l generalizing n with
  | nil => rfl
  | cons e es ih =>
      rw [renumberFrom, List.map_cons, List.length_cons, List.range'_succ, ih]

theorem renumberFrom_length (n : Nat) (l : List WishListEntry) :
    (renumberFrom n l).length = l.length := by
  have := congrArg List.length (renumberFrom_map_position n l)
  rwa [List.length_map, List.length_range'] at this

theorem renumberFrom_dense (wl : WishList) (l : List WishListEntry)
    (h : wl.entries = renumberFrom 0 l) : densePositions wl := by
  unfold densePositions
  rw [h, renumberFrom_map_position, renumberFrom_length, List.range_eq_range']

theorem addEntry_dense (wl : WishList) (e : WishListEntry)
    (h : densePositions wl) : densePositions (wl.addEntry e) := by
  unfold densePositions at h ⊢
  simp only [WishList.addEntry, List.map_append, List.length_append]
  rw [h]
  simp [List.range_succ]

theorem applyWishMutation_dense {wl wl' : WishList} {m : WishMutation}
    (hd : densePositions wl) (h : applyWishMutation wl m = .ok wl') :
    densePositions wl' := by
  cases m with
  | addEntry e =>
      simp only [applyWishMutation] at h
      injection h with h
      subst h
      exact addEntry_dense wl e hd
  | removeEntry i =>
      simp only [applyWishMutation] at h
      injection h with h
      subst h
      exact renumberFrom_dense _ _ rfl
  | reorder ids =>
      simp only [applyWishMutation, WishList.reorder] at h
      split at h
      · injection h with h
        subst h
        exact renumberFrom_dense _ _ rfl
      · exact Except.noConfusion h

/-- C6: starting from any wish list whose positions are dense (e.g. a freshly
created empty one) and applying any sequence of wish-list mutations
(`addEntry`, `removeEntry`, `reorder`), the surviving entries' `position`
values form a dense, zero-based `0..n-1` sequence with no duplicates and no
gaps after every mutation. -/
theorem wishlist_mutations_keep_positions_dense (ms : List WishMutation)
    (wl wl' : WishList) (hd : densePositions wl)
    (h : runWishMutations ms wl = .ok wl') : densePositions wl' := by
  induction ms generalizing wl with
  | nil =>
      rw [runWishMutations] at h
      injection h with h
      exact h ▸ hd
  | cons m rest ih =>
      rw [runWishMutations] at h
      cases heq : applyWishMutation wl m with
      | ok wl2 =>
          rw [heq] at h
          exact ih wl2 (applyWishMutation_dense hd heq) h
      | error e =>
          rw [heq] at h
          exact Except.noConfusion h

/-- A concrete mutation sequence: two appends, a reorder swapping the two
entries, then a removal. -/
def exWishMutations : List WishMutation :=
  [ .addEntry { id := "e1", referencedItemNumber := "40152" }
  , .addEntry { id := "e2", referencedItemNumber := "37123" }
  , .reorder ["e2", "e1"]
  , .removeEntry "e2" ]

/-- The wish list that `exWishMutations` produces from an empty list. -/
def exWishResult : WishList :=
  { id := "w1"
    entries := [{ id := "e1", referencedItemNumber := "40152", position := 0 }] }

/-- Witness for C6 at a concrete input: running `exWishMutations` on an empty
wish list succeeds and the resulting positions are dense. -/
theorem wishlist_mutations_keep_positions_dense_witness :
    densePositions exWishResult :=
  wishlist_mutations_keep_positions_dense exWishMutations { id := "w1" } exWishResult
    (by decide) (by rfl)

/-! ## Tauri-aware logger (`src/src/lib/tauri-logger.ts`)

Embedding of the synchronous behaviour of the exported logging functions.
JavaScript values are modelled by their observable behaviour under the three
operations the logger applies to them: the `typeof` dispatch of
`safeSerialize`, the JSON round-trip (`none` = `JSON.stringify` throws, e.g.
on a circular object), and `String(·)` (`none` = `toString` throws).  Throwing
is modelled as `Except.error`; the behaviour of the external sinks (the lazily
loaded tauri log module and the console method) is part of the environment.
`ensureTauriLog` only schedules an asynchronous import whose failure is
handled in its own `catch`, so the synchronous call path depends only on the
current value of the `tauriLogModule` variable, carried in `LogEnv`. -/

inductive LogLevel
  | debug
  | info
  | warn
  | error
  | trace
deriving DecidableEq, Repr

inductive JsArg
  /-- a JS string primitive -/
  | vstr (s : String)
  /-- a JS number primitive -/
  | vnum (n : Int)
  /-- a JS boolean primitive -/
  | vbool (b : Bool)
  | vnull
  | vundef
  /-- a plain JSON-clonable object (its serialized form) -/
  | vjson (s : String)
  /-- a general object: `json` is its JSON round-trip result (`none` if
  `JSON.stringify` throws), `toStr` its `String(·)` result (`none` if
  `toString` throws) -/
  | vobj (json : Option String) (toStr : Option String)
deriving DecidableEq, Repr

/-- `safeSerialize` (tauri-logger.ts lines 16-30): primitives, null and
undefined are returned as-is; otherwise `JSON.parse(JSON.stringify(arg))` is
tried, falling back to `String(arg)`, falling back to the literal
`"[unserializable]"`.  Total by construction. -/
def safeSerialize : JsArg → JsArg
  | .vstr s => .vstr s
  | .vnum n => .vnum n
  | .vbool b => .vbool b
  | .vnull => .vnull
  | .vundef => .vundef
  | .vjson s => .vjson s
  | .vobj (some s) _ => .vjson s
  | .vobj none (some t) => .vstr t
  | .vobj none none => .vstr "[unserializable]"

/-- `String(arg)` for a single value (`none` = it throws). -/
def jsToString : JsArg → Option String
  | .vstr s => some s
  | .vnum n => some (toString n)
  | .vbool b => some (toString b)
  | .vnull => some ""
  | .vundef => some ""
  | .vjson _ => some "[object Object]"
  | .vobj _ (some t) => some t
  | .vobj _ none => none

/-- `String(args)` for the argument array: joins the element strings with a
comma, throwing (`none`) if any element's `toString` throws. -/
def stringOfArgs (args : List JsArg) : Option String :=
  (args.mapM jsToString).map fun parts => String.intercalate "," parts

/-- The lazily imported tauri log module: which level functions it exports,
and whether a call to one returns normally (`true`) or throws (`false`). -/
structure TauriLogModule where
  hasLevel : LogLevel → Bool
  call : LogLevel → List JsArg → Bool

/-- The environment of one synchronous logging call: the current value of the
`tauriLogModule` variable and the behaviour of the chosen console method
(`console[level] ?? console.log`): `true` = returns, `false` = throws. -/
structure LogEnv where
  tauriLogModule : Option TauriLogModule := none
  consoleCall : List JsArg → Bool

/-- The console path of `callTauriOrConsole` (lines 63-69):
`cons.apply(console, args)` inside try/catch; on a throw, the catch block
calls `cons(String(args))` — this second call is *not* inside a try, so a
throw of `String(args)` or of the retried sink call propagates. -/
def consoleFallback (env : LogEnv) (args : List JsArg) : Except Unit Unit :=
  if env.consoleCall args then
    .ok ()
  else
    match stringOfArgs args with
    | none => .error ()
    | some s => if env.consoleCall [.vstr s] then .ok () else .error ()

/-- `callTauriOrConsole` (lines 54-70): if the tauri module is loaded and
exports the level function, call it with safe-serialized arguments, catching
a throw and falling through to the console; otherwise use the console. -/
def callTauriOrConsole (env : LogEnv) (level : LogLevel) (args : List JsArg) :
    Except Unit Unit :=
  match env.tauriLogModule with
  | some m =>
      if m.hasLevel level then
        if m.call level (args.map safeSerialize) then .ok ()
        else consoleFallback env args
      else consoleFallback env args
  | none => consoleFallback env args

/-- Exported `debug` (lines 72-75). -/
def debug (env : LogEnv) (args : List JsArg) : Except Unit Unit :=
  callTauriOrConsole env .debug args

/-- Exported `info` (lines 77-80). -/
def info (env : LogEnv) (args : List JsArg) : Except Unit Unit :=
  callTauriOrConsole env .info args

/-- Exported `warn` (lines 82-85). -/
def warn (env : LogEnv) (args : List JsArg) : Except Unit Unit :=
  callTauriOrConsole env .warn args

/-- Exported `error` (lines 87-90). -/
def error (env : LogEnv) (args : List JsArg) : Except Unit Unit :=
  callTauriOrConsole env .error args

/-- Exported `trace` (lines 92-95). -/
def trace (env : LogEnv) (args : List JsArg) : Except Unit Unit :=
  callTauriOrConsole env .trace args

/-- A console whose method throws on every invocation (and no tauri module
loaded). -/
def throwingConsole : LogEnv := { consoleCall := fun _ => false }

/-- A console whose method always returns normally. -/
def okConsole : LogEnv := { consoleCall := fun _ => true }

/-- C10 counterexample: with no tauri module and a console sink that throws,
`debug` propagates the exception — the catch block's retry
`cons(String(args))` (tauri-logger.ts line 68) is not inside a try, so its
throw escapes, refuting totality of the exported logging functions for every
argument list and sink behaviour. -/
theorem logging_exception_propagates :
    debug throwingConsole [.vstr "boom"] = .error () := rfl

theorem consoleFallback_ok (env : LogEnv) (args : List JsArg)
    (hc : ∀ xs, env.consoleCall xs = true) : consoleFallback env args = .ok () := by
  unfold consoleFallback
  simp [hc]

theorem callTauriOrConsole_ok (env : LogEnv) (level : LogLevel) (args : List JsArg)
    (hc : ∀ xs, env.consoleCall xs = true) :
    callTauriOrConsole env level args = .ok () := by
  unfold callTauriOrConsole
  cases env.tauriLogModule with
  | none => exact consoleFallback_ok env args hc
  | some m =>
      show (if m.hasLevel level = true then
              if m.call level (List.map safeSerialize args) = true then Except.ok ()
              else consoleFallback env args
            else consoleFallback env args) = Except.ok ()
      by_cases h1 : m.hasLevel level = true
      · rw [if_pos h1]
        by_cases h2 : m.call level (args.map safeSerialize) = true
        · rw [if_pos h2]
        · rw [if_neg h2]
          exact consoleFallback_ok env args hc
      · rw [if_neg h1]
        exact consoleFallback_ok env args hc

/-- C10 (amended): serialization failures never escape — `safeSerialize` is
total, falling back to `String(arg)` and then to the literal
`"[unserializable]"` — and the first failure of the underlying sink is caught
with a stringified retry; every exported logging function returns normally
for every argument list whenever the console sink itself does not throw.
(Only when the sink throws and the un-guarded retry also throws does the
exception propagate, as the counterexample shows.) -/
theorem logging_functions_total_when_sink_returns (env : LogEnv) (args : List JsArg)
    (hc : ∀ xs, env.consoleCall xs = true) :
    safeSerialize (.vobj none none) = .vstr "[unserializable]" ∧
    safeSerialize (.vobj none (some "str")) = .vstr "str" ∧
    debug env args = .ok () ∧
    info env args = .ok () ∧
    warn env args = .ok () ∧
    error env args = .ok () ∧
    trace env args = .ok () :=
  ⟨rfl, rfl, callTauriOrConsole_ok env .debug args hc, callTauriOrConsole_ok env .info args hc,
    callTauriOrConsole_ok env .warn args hc, callTauriOrConsole_ok env .error args hc,
    callTauriOrConsole_ok env .trace args hc⟩

/-- Witness for the amended C10 at a concrete input: logging an object whose
serialization and `toString` both throw still returns normally when the
console sink returns. -/
theorem logging_functions_total_witness :
    debug okConsole [.vobj none none] = .ok () ∧
    trace okConsole [.vobj none none] = .ok () :=
  ⟨(logging_functions_total_when_sink_returns okConsole [.vobj none none] fun _ => rfl).2.2.1,
    (logging_functions_total_when_sink_returns okConsole [.vobj none none] fun _ => rfl).2.2.2.2.2.2⟩

end RustyShed
